import Mathlib

/-!
Shallow embedding of the two custom elements of the turbo repository:
`src/elements/stream_element.ts` and `src/elements/frame_element.ts`.

Modelling conventions:
- A DOM element's attribute store becomes a function `String → Option String`
  with `getAttribute` / `setAttribute` / `removeAttribute` / `hasAttribute`.
- The host event loop is single threaded, so the async render pipeline of the
  stream element becomes a pure function returning its settled outcome
  (`Except String Unit`, errors carried as their message strings) together
  with an instrumentation trace counting before-render signal dispatches and
  action-handler invocations.  The memoizing assignment
  `renderPromise ??= ...` is modelled as an `Option` field holding the
  settled outcome; calls are modelled at event-loop granularity (each call
  observes the field as left by the previous call), which matches the host,
  where the assignment happens before the only suspension point.
- `dispatchEvent` of the cancelable before-render event is modelled by a
  boolean oracle `canceled` (did some listener call `preventDefault`);
  `await nextAnimationFrame()` is a pure delay and is modelled as a no-op.
- The external collaborators (`StreamActions`, `FrameController.visit`) are
  parameters: a registry `String → Option Handler` and a per-change visit
  result.
-/

namespace Turbo

/-- A DOM element's attribute store, with `getAttribute` semantics. -/
def AttrMap : Type := String → Option String

/-- `getAttribute(name)`: the value, or `none` when absent. -/
def AttrMap.get (m : AttrMap) (name : String) : Option String := m name

/-- `setAttribute(name, value)`. -/
def AttrMap.set (m : AttrMap) (name value : String) : AttrMap :=
  fun n => if n = name then some value else m n

/-- `removeAttribute(name)`. -/
def AttrMap.remove (m : AttrMap) (name : String) : AttrMap :=
  fun n => if n = name then none else m n

/-- `hasAttribute(name)`. -/
def AttrMap.has (m : AttrMap) (name : String) : Bool := (m name).isSome

/-- JavaScript truthiness of a `string | null` value: `null` and `""` are
falsy, every other string is truthy. -/
def truthyStr : Option String → Bool
  | none => false
  | some s => s != ""

/-- One attempt of the regular expression `<[^>]+>` at the position right
after a `<`: a greedy, nonempty run of characters other than `>`, followed
by `>`. -/
def matchTagAt (cs : List Char) : Option (List Char) :=
  let body := cs.takeWhile (fun c => c ≠ '>')
  match cs.dropWhile (fun c => c ≠ '>') with
  | '>' :: _ => if body.isEmpty then none else some body
  | _ => none

/-- The first match of `/<[^>]+>/` in a character list (JavaScript
`String.prototype.match` with a non-global regex, first element). -/
def firstTag : List Char → Option String
  | [] => none
  | '<' :: cs =>
    match matchTagAt cs with
    | some body => some (String.mk ('<' :: (body ++ ['>'])))
    | none => firstTag cs
  | _ :: cs => firstTag cs

namespace StreamElement

/-- The first child element of a stream element: either an
`HTMLTemplateElement` (carrying its template content, kept abstract as a
string) or some other element. -/
inductive ChildElem where
  | template (content : String)
  | other
deriving DecidableEq

/-- The DOM-resident data a `StreamElement` instance reads: its attributes,
its first child element (if any), and its `outerHTML` serialization (used
only by the `description` getter). -/
structure Config where
  attrs : AttrMap
  firstElementChild : Option ChildElem
  outerHTML : String

/-- The `action` getter: `this.getAttribute("action")`. -/
def action (cfg : Config) : Option String := cfg.attrs.get "action"

/-- The `target` getter: `this.getAttribute("target")`. -/
def target (cfg : Config) : Option String := cfg.attrs.get "target"

/-- The `description` getter:
`(this.outerHTML.match(/<[^>]+>/) ?? [])[0] ?? "<turbo-stream>"`. -/
def descr (cfg : Config) : String :=
  (firstTag cfg.outerHTML.data).getD "<turbo-stream>"

/-- The `raise` method: `throw new Error(description + ": " + message)`,
modelled as the `Except.error` it produces. -/
def raise (cfg : Config) (message : String) : Except String α :=
  .error (descr cfg ++ ": " ++ message)

/-- The `templateElement` getter: the first child element when it is an
`HTMLTemplateElement`, otherwise `raise`. -/
def templateElement (cfg : Config) : Except String ChildElem :=
  match cfg.firstElementChild with
  | some (ChildElem.template c) => .ok (ChildElem.template c)
  | _ => raise cfg "first child element must be a <template> element"

/-- `content` of a child element (only meaningful on templates). -/
def ChildElem.content : ChildElem → String
  | .template c => c
  | .other => ""

/-- The `templateContent` getter: `this.templateElement.content`. -/
def templateContent (cfg : Config) : Except String String :=
  (templateElement cfg).map ChildElem.content

/-- An action handler, as consumed from the external `StreamActions`
registry: it receives the element and may throw. -/
def Handler : Type := Config → Except String Unit

/-- Modelled from the spec: the external `StreamActions` registry
(`src/core/streams/stream_actions` is not under src/); the spec gives
`lookup(name) -> Handler | absent`. -/
def Registry : Type := String → Option Handler

/-- The `performAction` getter: if the `action` attribute is truthy, look it
up in `StreamActions`; a hit returns the handler, a miss raises
"unknown action"; a falsy attribute raises "action attribute is missing". -/
def performAction (cfg : Config) (StreamActions : Registry) :
    Except String Handler :=
  if truthyStr (action cfg) then
    match StreamActions ((action cfg).getD "") with
    | some actionFunction => .ok actionFunction
    | none => raise cfg "unknown action"
  else raise cfg "action attribute is missing"

/-- Instrumentation of one pass over the render pipeline: how often the
before-render signal was dispatched and how often an action handler was
invoked. -/
structure RenderTrace where
  signalDispatches : Nat
  handlerInvocations : Nat
deriving DecidableEq

/-- Pointwise sum of traces. -/
def RenderTrace.add (a b : RenderTrace) : RenderTrace :=
  ⟨a.signalDispatches + b.signalDispatches,
   a.handlerInvocations + b.handlerInvocations⟩

/-- The body of the async IIFE inside `render`: dispatch the cancelable
before-render event; if not canceled, wait one animation frame and run
`this.performAction()`.  `canceled = true` means some listener called
`preventDefault`, making `dispatchEvent` return `false`. -/
def renderBody (cfg : Config) (StreamActions : Registry) (canceled : Bool) :
    Except String Unit × RenderTrace :=
  if canceled then (.ok (), ⟨1, 0⟩)
  else
    match performAction cfg StreamActions with
    | .error m => (.error m, ⟨1, 0⟩)
    | .ok actionFunction => (actionFunction cfg, ⟨1, 1⟩)

/-- A `StreamElement` instance: its DOM data, the memoized `renderPromise`
(`none` until the first render call, then the settled outcome), and whether
it is connected to the document. -/
structure Inst where
  cfg : Config
  renderPromise : Option (Except String Unit)
  connected : Bool

/-- The `render` method: `renderPromise ??= (async () => ...)()`.  A second
call observes the memoized promise and returns it, running nothing. -/
def render (StreamActions : Registry) (canceled : Bool) (st : Inst) :
    Except String Unit × Inst × RenderTrace :=
  match st.renderPromise with
  | some o => (o, st, ⟨0, 0⟩)
  | none =>
    let r := renderBody st.cfg StreamActions canceled
    (r.1, { st with renderPromise := some r.1 }, r.2)

/-- The `disconnect` method: `try { this.remove() } catch {}`.  The oracle
`removeThrows` says whether `remove` throws; a throw is swallowed and leaves
the element where it was. -/
def disconnect (removeThrows : Bool) (st : Inst) : Inst :=
  if removeThrows then st else { st with connected := false }

/-- The `connectedCallback` method:
`try { await render() } catch (e) { console.error(e) } finally { disconnect() }`.
Returns the logged error (if any), the final instance state, and the render
trace; the method itself never throws. -/
def connectedCallback (StreamActions : Registry) (canceled removeThrows : Bool)
    (st : Inst) : Option String × Inst × RenderTrace :=
  let r := render StreamActions canceled st
  let logged : Option String :=
    match r.1 with
    | .ok _ => none
    | .error m => some m
  (logged, disconnect removeThrows r.2.1, r.2.2)

/-- A sequence of `render` calls, each with its own registry and
cancellation oracle: the list of outcomes, the final state, and the summed
trace. -/
def renderSeq (envs : List (Registry × Bool)) (st : Inst) :
    List (Except String Unit) × Inst × RenderTrace :=
  match envs with
  | [] => ([], st, ⟨0, 0⟩)
  | e :: rest =>
    let r := render e.1 e.2 st
    let rs := renderSeq rest r.2.1
    (r.1 :: rs.1, rs.2.1, RenderTrace.add r.2.2 rs.2.2)

end StreamElement

namespace FrameElement

/-- The value of the `loaded` property: `Promise.resolve(undefined)` by
default, or the promise returned by a `controller.visit` call (promises are
opaque tokens here, distinguished by an id). -/
inductive PendingResult where
  | resolvedEmpty
  | fromVisit (id : Nat)
deriving DecidableEq

/-- The document context a frame element reads when deciding whether it is
active: whether `ownerDocument === document`, whether the owner document has
a `documentElement`, and whether that root carries `data-turbo-preview`. -/
structure DocEnv where
  ownerIsLiveDocument : Bool
  ownerHasDocumentElement : Bool
  previewMarked : Bool

/-- The `isPreview` getter:
`this.ownerDocument?.documentElement?.hasAttribute("data-turbo-preview")`,
collapsed to its truthiness (`undefined` from a missing root is falsy). -/
def isPreview (e : DocEnv) : Bool := e.ownerHasDocumentElement && e.previewMarked

/-- The `isActive` getter:
`this.ownerDocument === document && !this.isPreview`. -/
def isActive (e : DocEnv) : Bool := e.ownerIsLiveDocument && !(isPreview e)

/-- A `FrameElement` instance's own mutable data: its attributes and the
`loaded` own-property installed by `Object.defineProperty` (absent until the
first accepted trigger, when the prototype getter's
`Promise.resolve(undefined)` answers instead). -/
structure State where
  attrs : AttrMap
  loadedOverride : Option PendingResult

/-- The `src` getter: `this.getAttribute("src")`. -/
def src (st : State) : Option String := st.attrs.get "src"

/-- The `src` setter: a truthy value is written with `setAttribute`, a falsy
one (`null` or `""`) removes the attribute. -/
def setSrc (st : State) (value : Option String) : State :=
  if truthyStr value then { st with attrs := st.attrs.set "src" (value.getD "") }
  else { st with attrs := st.attrs.remove "src" }

/-- The `loaded` property read: the installed own property if present, else
the prototype getter's `Promise.resolve(undefined)`. -/
def loaded (st : State) : PendingResult :=
  st.loadedOverride.getD PendingResult.resolvedEmpty

/-- The `disabled` getter: `this.hasAttribute("disabled")`. -/
def disabled (st : State) : Bool := st.attrs.has "disabled"

/-- The `disabled` setter: `true` sets the attribute to `""`, `false`
removes it. -/
def setDisabled (st : State) (value : Bool) : State :=
  if value then { st with attrs := st.attrs.set "disabled" "" }
  else { st with attrs := st.attrs.remove "disabled" }

/-- The `autoscroll` getter: `this.hasAttribute("autoscroll")`. -/
def autoscroll (st : State) : Bool := st.attrs.has "autoscroll"

/-- The `autoscroll` setter: `true` sets the attribute to `""`, `false`
removes it. -/
def setAutoscroll (st : State) (value : Bool) : State :=
  if value then { st with attrs := st.attrs.set "autoscroll" "" }
  else { st with attrs := st.attrs.remove "autoscroll" }

/-- The `attributeChangedCallback` method, run after the attribute store has
been updated: if `this.src && this.isActive`, call `controller.visit(src)`
(whose returned promise is the oracle `visitResult`) and install it as the
`loaded` own property.  Returns the updated state and the url passed to
`visit` (`none` when no call was made). -/
def attributeChangedCallback (env : DocEnv) (visitResult : PendingResult)
    (st : State) : State × Option String :=
  if truthyStr (src st) && isActive env then
    ({ st with loadedOverride := some visitResult }, some ((src st).getD ""))
  else (st, none)

/-- One observed mutation of the watched `src` attribute: the document
context at that moment, the new attribute value (`none` = removal), and the
promise `controller.visit` would return for this call. -/
structure SrcChange where
  env : DocEnv
  newValue : Option String
  visitResult : PendingResult

/-- Whether a change passes the gate `this.src && this.isActive` at the
moment of change. -/
def accepted (c : SrcChange) : Bool := truthyStr c.newValue && isActive c.env

/-- Apply one `src` mutation: the host updates the attribute, then delivers
`attributeChangedCallback`. -/
def applySrcChange (st : State) (c : SrcChange) : State × Option String :=
  let st1 :=
    match c.newValue with
    | some v => { st with attrs := st.attrs.set "src" v }
    | none => { st with attrs := st.attrs.remove "src" }
  attributeChangedCallback c.env c.visitResult st1

/-- Apply a sequence of `src` mutations in host-delivery order, collecting
the urls forwarded to `controller.visit` in call order. -/
def applySrcChanges (st : State) : List SrcChange → State × List String
  | [] => (st, [])
  | c :: rest =>
    let r := applySrcChange st c
    let rs := applySrcChanges r.1 rest
    match r.2 with
    | some u => (rs.1, u :: rs.2)
    | none => (rs.1, rs.2)

/-- The visit result of the last accepted change in a sequence, if any. -/
def lastAcceptedVisit : List SrcChange → Option PendingResult
  | [] => none
  | c :: rest =>
    match lastAcceptedVisit rest with
    | some r => some r
    | none => if accepted c then some c.visitResult else none

end FrameElement

/-! Helper lemmas about the attribute store. -/

theorem AttrMap.get_set_self (m : AttrMap) (name value : String) :
    (m.set name value).get name = some value := by
  simp [AttrMap.get, AttrMap.set]

theorem AttrMap.get_remove_self (m : AttrMap) (name : String) :
    (m.remove name).get name = none := by
  simp [AttrMap.get, AttrMap.remove]

namespace FrameElement

/-- What one `src` mutation forwards to `controller.visit`. -/
theorem applySrcChange_visit (st : State) (c : SrcChange) :
    (applySrcChange st c).2 =
      if accepted c then some (c.newValue.getD "") else none := by
  obtain ⟨env, v, pr⟩ := c
  cases v with
  | none =>
    simp [applySrcChange, attributeChangedCallback, accepted, src,
      AttrMap.get, AttrMap.remove, truthyStr]
  | some s =>
    by_cases h1 : (truthyStr (some s) && isActive env) = true <;>
      simp [applySrcChange, attributeChangedCallback, accepted, src,
        AttrMap.get, AttrMap.set, h1]

/-- What one `src` mutation does to the `loaded` property. -/
theorem applySrcChange_loaded (st : State) (c : SrcChange) :
    loaded (applySrcChange st c).1 =
      if accepted c then c.visitResult else loaded st := by
  obtain ⟨env, v, pr⟩ := c
  cases v with
  | none =>
    simp [applySrcChange, attributeChangedCallback, accepted, src,
      AttrMap.get, AttrMap.remove, truthyStr, loaded]
  | some s =>
    by_cases h1 : (truthyStr (some s) && isActive env) = true <;>
      simp [applySrcChange, attributeChangedCallback, accepted, src,
        AttrMap.get, AttrMap.set, h1, loaded]

end FrameElement

/-- C2: for every frame element, a change of the watched `src` attribute
invokes `controller.visit(src)` iff the new value is non-empty (truthy) and
`isActive` holds at the moment of change (owner document live and not
preview-marked); over any sequence of changes, the urls forwarded to the
controller are exactly those of the accepted changes, in order — rejected
changes are never queued or replayed. -/
theorem frame_src_gate :
    (∀ (st : FrameElement.State) (c : FrameElement.SrcChange),
      (FrameElement.applySrcChange st c).2 =
        if truthyStr c.newValue && FrameElement.isActive c.env
        then some (c.newValue.getD "") else none) ∧
    (∀ (st : FrameElement.State) (cs : List FrameElement.SrcChange),
      (FrameElement.applySrcChanges st cs).2 =
        cs.filterMap (fun c =>
          if FrameElement.accepted c then some (c.newValue.getD "") else none)) := by
  constructor
  · intro st c
    exact FrameElement.applySrcChange_visit st c
  · intro st cs
    induction cs generalizing st with
    | nil => rfl
    | cons c rest ih =>
      have hv := FrameElement.applySrcChange_visit st c
      by_cases hacc : FrameElement.accepted c = true <;>
        simp only [hacc, if_true, if_false, Bool.not_eq_true] at hv <;>
        simp [FrameElement.applySrcChanges, List.filterMap_cons, hv, ih, hacc]

/-- C6: for every frame element, `disabled` and `autoscroll` are pure views
over attribute presence: reading returns `true` iff the attribute is
present; setting `true` writes the attribute with an empty value; setting
`false` removes it; hence a set followed by a get returns the value set. -/
theorem frame_bool_attr_roundtrip (st : FrameElement.State) (b : Bool) :
    FrameElement.disabled (FrameElement.setDisabled st b) = b ∧
    FrameElement.autoscroll (FrameElement.setAutoscroll st b) = b ∧
    FrameElement.disabled st = (st.attrs.get "disabled").isSome ∧
    FrameElement.autoscroll st = (st.attrs.get "autoscroll").isSome ∧
    (FrameElement.setDisabled st true).attrs.get "disabled" = some "" ∧
    (FrameElement.setDisabled st false).attrs.get "disabled" = none ∧
    (FrameElement.setAutoscroll st true).attrs.get "autoscroll" = some "" ∧
    (FrameElement.setAutoscroll st false).attrs.get "autoscroll" = none := by
  cases b <;>
    simp [FrameElement.disabled, FrameElement.setDisabled, FrameElement.autoscroll,
      FrameElement.setAutoscroll, AttrMap.has, AttrMap.get, AttrMap.set, AttrMap.remove]

/-- C7: a frame element's `loaded` property is an already-resolved empty
value before any accepted trigger; after a sequence of changes it is the
visit result of the last accepted change (overwriting, not queuing); in
particular after two accepted triggers it is the second call's result. -/
theorem frame_loaded_last_write_wins :
    (∀ a : AttrMap,
      FrameElement.loaded ⟨a, none⟩ = FrameElement.PendingResult.resolvedEmpty) ∧
    (∀ (st : FrameElement.State) (cs : List FrameElement.SrcChange),
      FrameElement.loaded (FrameElement.applySrcChanges st cs).1 =
        (FrameElement.lastAcceptedVisit cs).getD (FrameElement.loaded st)) ∧
    (∀ (st : FrameElement.State) (c1 c2 : FrameElement.SrcChange),
      FrameElement.accepted c1 = true → FrameElement.accepted c2 = true →
      FrameElement.loaded (FrameElement.applySrcChanges st [c1, c2]).1 =
        c2.visitResult) := by
  have hseq : ∀ (cs : List FrameElement.SrcChange) (st : FrameElement.State),
      FrameElement.loaded (FrameElement.applySrcChanges st cs).1 =
        (FrameElement.lastAcceptedVisit cs).getD (FrameElement.loaded st) := by
    intro cs
    induction cs with
    | nil => intro st; rfl
    | cons c rest ih =>
      intro st
      unfold FrameElement.applySrcChanges FrameElement.lastAcceptedVisit
      have h1 := FrameElement.applySrcChange_loaded st c
      cases hr : (FrameElement.applySrcChange st c).2 <;>
        cases hl : FrameElement.lastAcceptedVisit rest <;>
        by_cases hacc : FrameElement.accepted c = true <;>
        simp_all [ih ((FrameElement.applySrcChange st c).1)]
  refine ⟨fun a => rfl, fun st cs => hseq cs st, fun st c1 c2 h1 h2 => ?_⟩
  rw [hseq [c1, c2] st]
  simp [FrameElement.lastAcceptedVisit, h1, h2]

/-- C7 witness: a fresh frame's `loaded` defaults to the resolved empty
value, and two concrete accepted triggers leave the second visit's result. -/
theorem frame_loaded_last_write_wins_witness :
    FrameElement.loaded
      (FrameElement.applySrcChanges ⟨fun _ => none, none⟩
        [⟨⟨true, true, false⟩, some "/one", FrameElement.PendingResult.fromVisit 1⟩,
         ⟨⟨true, true, false⟩, some "/two", FrameElement.PendingResult.fromVisit 2⟩]).1 =
      FrameElement.PendingResult.fromVisit 2 :=
  frame_loaded_last_write_wins.2.2 ⟨fun _ => none, none⟩
    ⟨⟨true, true, false⟩, some "/one", FrameElement.PendingResult.fromVisit 1⟩
    ⟨⟨true, true, false⟩, some "/two", FrameElement.PendingResult.fromVisit 2⟩
    (by decide) (by decide)

/-- C10: assigning a non-empty string to a frame element's `src` property
writes the attribute with that string; assigning `null` or the empty string
removes the attribute, and a subsequent read returns the absent value. -/
theorem frame_src_setter (st : FrameElement.State) :
    (∀ s : String, s ≠ "" →
      FrameElement.src (FrameElement.setSrc st (some s)) = some s ∧
      (FrameElement.setSrc st (some s)).attrs.get "src" = some s) ∧
    FrameElement.src (FrameElement.setSrc st none) = none ∧
    FrameElement.src (FrameElement.setSrc st (some "")) = none ∧
    (FrameElement.setSrc st none).attrs.get "src" = none ∧
    (FrameElement.setSrc st (some "")).attrs.get "src" = none := by
  refine ⟨fun s hs => ?_, ?_, ?_, ?_, ?_⟩
  · constructor <;>
      simp [FrameElement.src, FrameElement.setSrc, truthyStr, AttrMap.get,
        AttrMap.set, AttrMap.remove, hs]
  all_goals
    simp [FrameElement.src, FrameElement.setSrc, truthyStr, AttrMap.get,
      AttrMap.set, AttrMap.remove]

/-- C10 witness: a concrete non-empty assignment round-trips, on a frame
with no attributes. -/
theorem frame_src_setter_witness :
    FrameElement.src (FrameElement.setSrc ⟨fun _ => none, none⟩ (some "/messages")) =
      some "/messages" :=
  ((frame_src_setter ⟨fun _ => none, none⟩).1 "/messages" (by decide)).1

namespace StreamElement

/-- The message of a failed outcome (`none` for success). -/
def errMsg {α : Type} : Except String α → Option String
  | .error m => some m
  | .ok _ => none

/-- Test fixture: a registry with no actions. -/
def regNone : Registry := fun _ => none

/-- Test fixture: a stream element with no attributes, no children, empty
serialization. -/
def cfgBare : Config := ⟨fun _ => none, none, ""⟩

/-- Test fixture: an `action` attribute that is present but empty. -/
def cfgEmptyAction : Config :=
  ⟨fun n => if n = "action" then some "" else none, none, ""⟩

/-- Test fixture: a handler that reads the element's template content, as
the concrete `StreamActions` handlers do. -/
def readsTemplate : Handler := fun cfg => (templateContent cfg).map (fun _ => ())

/-- Test fixture: `action="append"` with a non-template first child. -/
def cfgNoTemplate : Config :=
  ⟨fun n => if n = "action" then some "append" else none, some ChildElem.other, ""⟩

/-- Test fixture: a registry whose only entry is `append ↦ readsTemplate`. -/
def regReads : Registry := fun n => if n = "append" then some readsTemplate else none

/-- One pass of the pipeline body dispatches the before-render signal
exactly once and runs at most one handler. -/
theorem renderBody_dispatches (cfg : Config) (S : Registry) (canceled : Bool) :
    (renderBody cfg S canceled).2.signalDispatches = 1 ∧
    (renderBody cfg S canceled).2.handlerInvocations ≤ 1 := by
  cases canceled with
  | true => simp [renderBody]
  | false => cases hpa : performAction cfg S <;> simp [renderBody, hpa]

/-- A `render` call on an instance with a settled `renderPromise` returns
the memoized outcome and runs nothing; hence so does any sequence. -/
theorem renderSeq_settled (envs : List (Registry × Bool)) (st : Inst)
    (o : Except String Unit) (h : st.renderPromise = some o) :
    renderSeq envs st = (List.replicate envs.length o, st, ⟨0, 0⟩) := by
  induction envs with
  | nil => simp [renderSeq]
  | cons e rest ih =>
    simp [renderSeq, render, h, ih, List.replicate_succ, RenderTrace.add]

end StreamElement

/-- C1: for any stream element instance with no render yet started, any
sequence of N ≥ 1 `render` calls (each with its own registry and
cancellation oracle, i.e. before or after completion) dispatches the
before-render signal exactly once in total, invokes the action handler at
most once, and every call returns the same outcome as the first call. -/
theorem stream_render_idempotent (e : StreamElement.Registry × Bool)
    (rest : List (StreamElement.Registry × Bool)) (st : StreamElement.Inst)
    (h : st.renderPromise = none) :
    (StreamElement.renderSeq (e :: rest) st).2.2.signalDispatches = 1 ∧
    (StreamElement.renderSeq (e :: rest) st).2.2.handlerInvocations ≤ 1 ∧
    ∀ o ∈ (StreamElement.renderSeq (e :: rest) st).1,
      o = (StreamElement.render e.1 e.2 st).1 := by
  have hr : StreamElement.render e.1 e.2 st =
      ((StreamElement.renderBody st.cfg e.1 e.2).1,
       { st with renderPromise := some (StreamElement.renderBody st.cfg e.1 e.2).1 },
       (StreamElement.renderBody st.cfg e.1 e.2).2) := by
    simp [StreamElement.render, h]
  have hsettled := StreamElement.renderSeq_settled rest
      { st with renderPromise := some (StreamElement.renderBody st.cfg e.1 e.2).1 }
      (StreamElement.renderBody st.cfg e.1 e.2).1 rfl
  have htr := StreamElement.renderBody_dispatches st.cfg e.1 e.2
  refine ⟨?_, ?_, ?_⟩
  · simp [StreamElement.renderSeq, hr, hsettled, StreamElement.RenderTrace.add, htr.1]
  · simp [StreamElement.renderSeq, hr, hsettled, StreamElement.RenderTrace.add]
    exact htr.2
  · intro o ho
    simp [StreamElement.renderSeq, hr, hsettled] at ho
    rw [hr]
    rcases ho with ho | ho
    · exact ho
    · exact ho.2

/-- C1 witness: two concrete calls on a fresh bare element. -/
theorem stream_render_idempotent_witness :
    (StreamElement.renderSeq
      [(StreamElement.regNone, false), (StreamElement.regNone, true)]
      ⟨StreamElement.cfgBare, none, true⟩).2.2.signalDispatches = 1 ∧
    (StreamElement.renderSeq
      [(StreamElement.regNone, false), (StreamElement.regNone, true)]
      ⟨StreamElement.cfgBare, none, true⟩).2.2.handlerInvocations ≤ 1 ∧
    ∀ o ∈ (StreamElement.renderSeq
      [(StreamElement.regNone, false), (StreamElement.regNone, true)]
      ⟨StreamElement.cfgBare, none, true⟩).1,
      o = (StreamElement.render StreamElement.regNone false
        ⟨StreamElement.cfgBare, none, true⟩).1 :=
  stream_render_idempotent (StreamElement.regNone, false)
    [(StreamElement.regNone, true)] ⟨StreamElement.cfgBare, none, true⟩ rfl

/-- C3: if a listener cancels the before-render signal of a stream element
(fresh instance), the attachment pipeline invokes no action handler, logs no
error, and still removes the element from the document. -/
theorem stream_cancel_short_circuit (S : StreamElement.Registry)
    (st : StreamElement.Inst) (h : st.renderPromise = none) :
    (StreamElement.connectedCallback S true false st).1 = none ∧
    (StreamElement.connectedCallback S true false st).2.2.handlerInvocations = 0 ∧
    (StreamElement.connectedCallback S true false st).2.1.connected = false := by
  simp [StreamElement.connectedCallback, StreamElement.render, h,
    StreamElement.renderBody, StreamElement.disconnect]

/-- C3 witness: a concrete canceled render on a bare connected element. -/
theorem stream_cancel_short_circuit_witness :
    (StreamElement.connectedCallback StreamElement.regNone true false
      ⟨StreamElement.cfgBare, none, true⟩).1 = none ∧
    (StreamElement.connectedCallback StreamElement.regNone true false
      ⟨StreamElement.cfgBare, none, true⟩).2.2.handlerInvocations = 0 ∧
    (StreamElement.connectedCallback StreamElement.regNone true false
      ⟨StreamElement.cfgBare, none, true⟩).2.1.connected = false :=
  stream_cancel_short_circuit StreamElement.regNone
    ⟨StreamElement.cfgBare, none, true⟩ rfl

/-- C4: on every terminal outcome of the attachment-triggered pipeline
(success, thrown handler error, or cancellation skip), `disconnect` runs:
when removal does not throw, the element ends disconnected; a removal
failure is swallowed and does not change what the caller observes (the
logged error); and the render error, when there is one, is exactly what the
attachment caller logs. -/
theorem stream_terminal_cleanup (S : StreamElement.Registry)
    (canceled removeThrows : Bool) (st : StreamElement.Inst) :
    (removeThrows = false →
      (StreamElement.connectedCallback S canceled removeThrows st).2.1.connected = false) ∧
    (StreamElement.connectedCallback S canceled true st).1 =
      (StreamElement.connectedCallback S canceled false st).1 ∧
    (∀ m, (StreamElement.connectedCallback S canceled removeThrows st).1 = some m ↔
      (StreamElement.render S canceled st).1 = Except.error m) := by
  refine ⟨fun hrt => ?_, rfl, fun m => ?_⟩
  · subst hrt
    simp [StreamElement.connectedCallback, StreamElement.disconnect]
  · cases hout : (StreamElement.render S canceled st).1 <;>
      simp [StreamElement.connectedCallback, hout]

/-- C4 witness: the missing-action error is logged and the element is still
removed, at a concrete bare element. -/
theorem stream_terminal_cleanup_witness :
    (StreamElement.connectedCallback StreamElement.regNone false false
      ⟨StreamElement.cfgBare, none, true⟩).2.1.connected = false ∧
    ((StreamElement.connectedCallback StreamElement.regNone false false
      ⟨StreamElement.cfgBare, none, true⟩).1 =
        some "<turbo-stream>: action attribute is missing" ↔
      (StreamElement.render StreamElement.regNone false
        ⟨StreamElement.cfgBare, none, true⟩).1 =
        Except.error "<turbo-stream>: action attribute is missing") :=
  ⟨(stream_terminal_cleanup StreamElement.regNone false false
      ⟨StreamElement.cfgBare, none, true⟩).1 rfl,
   (stream_terminal_cleanup StreamElement.regNone false false
      ⟨StreamElement.cfgBare, none, true⟩).2.2
      "<turbo-stream>: action attribute is missing"⟩

/-- C5 counterexample: an `action` attribute that is present with the empty
value is present but not a key of the empty registry, yet the pipeline
fails with "action attribute is missing" rather than "unknown action": the
code gates on JavaScript truthiness, not on attribute presence. -/
theorem stream_action_resolution_counterexample :
    StreamElement.action StreamElement.cfgEmptyAction = some "" ∧
    StreamElement.regNone "" = none ∧
    StreamElement.errMsg
      (StreamElement.renderBody StreamElement.cfgEmptyAction
        StreamElement.regNone false).1 =
      some "<turbo-stream>: action attribute is missing" ∧
    StreamElement.errMsg
      (StreamElement.renderBody StreamElement.cfgEmptyAction
        StreamElement.regNone false).1 ≠
      some "<turbo-stream>: unknown action" := by
  refine ⟨rfl, rfl, by decide, by decide⟩

/-- C5 (amended): during action resolution, a falsy action attribute
(absent or empty) fails with "action attribute is missing"; a non-empty
attribute that is not a key of the registry fails with the distinct message
"unknown action"; otherwise the registered handler is invoked (exactly
once) on the element; both error messages are prefixed with the element's
human-readable description. -/
theorem stream_action_resolution (cfg : StreamElement.Config)
    (S : StreamElement.Registry) :
    ((StreamElement.action cfg = none ∨ StreamElement.action cfg = some "") →
      StreamElement.errMsg (StreamElement.renderBody cfg S false).1 =
        some (StreamElement.descr cfg ++ ": " ++ "action attribute is missing") ∧
      (StreamElement.renderBody cfg S false).2.handlerInvocations = 0) ∧
    (∀ s, StreamElement.action cfg = some s → s ≠ "" → S s = none →
      StreamElement.errMsg (StreamElement.renderBody cfg S false).1 =
        some (StreamElement.descr cfg ++ ": " ++ "unknown action") ∧
      (StreamElement.renderBody cfg S false).2.handlerInvocations = 0) ∧
    (∀ s f, StreamElement.action cfg = some s → s ≠ "" → S s = some f →
      (StreamElement.renderBody cfg S false).1 = f cfg ∧
      (StreamElement.renderBody cfg S false).2.handlerInvocations = 1) := by
  refine ⟨fun habs => ?_, fun s hs hne hmiss => ?_, fun s f hs hne hhit => ?_⟩
  · have ht : truthyStr (StreamElement.action cfg) = false := by
      rcases habs with h | h <;> simp [h, truthyStr]
    simp [StreamElement.renderBody, StreamElement.performAction, ht,
      StreamElement.raise, StreamElement.errMsg]
  · have ht : truthyStr (some s) = true := by
      simp [truthyStr, hne]
    simp [StreamElement.renderBody, StreamElement.performAction, ht, hs, hmiss,
      StreamElement.raise, StreamElement.errMsg]
  · have ht : truthyStr (some s) = true := by
      simp [truthyStr, hne]
    simp [StreamElement.renderBody, StreamElement.performAction, ht, hs, hhit]

/-- C5 witness: concrete instances of all three resolution outcomes. -/
theorem stream_action_resolution_witness :
    StreamElement.errMsg
      (StreamElement.renderBody StreamElement.cfgBare StreamElement.regNone false).1 =
      some (StreamElement.descr StreamElement.cfgBare ++ ": " ++
        "action attribute is missing") ∧
    (StreamElement.renderBody StreamElement.cfgNoTemplate StreamElement.regNone false).2.handlerInvocations = 0 ∧
    (StreamElement.renderBody StreamElement.cfgNoTemplate StreamElement.regReads false).2.handlerInvocations = 1 :=
  ⟨((stream_action_resolution StreamElement.cfgBare StreamElement.regNone).1
      (Or.inl rfl)).1,
   ((stream_action_resolution StreamElement.cfgNoTemplate StreamElement.regNone).2.1
      "append" rfl (by decide) rfl).2,
   ((stream_action_resolution StreamElement.cfgNoTemplate StreamElement.regReads).2.2
      "append" StreamElement.readsTemplate rfl (by decide) rfl).2⟩

/-- C8: for a stream element whose first child element is not a template
container, the pipeline still dispatches the before-render signal exactly
once and dispatch itself never fails; reading the template fails with
"first child element must be a <template> element"; with a handler that
reads the template, that error surfaces exactly at the (single) handler
invocation; a canceled pipeline raises nothing; and any error produced
before a handler runs is an action-resolution error, never the template
error. -/
theorem stream_template_error_deferred (cfg : StreamElement.Config)
    (S : StreamElement.Registry) (canceled : Bool)
    (h : ∀ c, cfg.firstElementChild ≠ some (StreamElement.ChildElem.template c)) :
    (StreamElement.renderBody cfg S canceled).2.signalDispatches = 1 ∧
    StreamElement.errMsg (StreamElement.templateContent cfg) =
      some (StreamElement.descr cfg ++ ": " ++
        "first child element must be a <template> element") ∧
    (∀ s, StreamElement.action cfg = some s → s ≠ "" →
      S s = some StreamElement.readsTemplate →
      StreamElement.errMsg (StreamElement.renderBody cfg S false).1 =
        some (StreamElement.descr cfg ++ ": " ++
          "first child element must be a <template> element") ∧
      (StreamElement.renderBody cfg S false).2.handlerInvocations = 1) ∧
    (canceled = true → (StreamElement.renderBody cfg S canceled).1 = Except.ok ()) ∧
    ((StreamElement.renderBody cfg S canceled).2.handlerInvocations = 0 →
      (StreamElement.renderBody cfg S canceled).1 = Except.ok () ∨
      StreamElement.errMsg (StreamElement.renderBody cfg S canceled).1 =
        some (StreamElement.descr cfg ++ ": " ++ "action attribute is missing") ∨
      StreamElement.errMsg (StreamElement.renderBody cfg S canceled).1 =
        some (StreamElement.descr cfg ++ ": " ++ "unknown action")) := by
  have htmpl : StreamElement.templateContent cfg =
      Except.error (StreamElement.descr cfg ++ ": " ++
        "first child element must be a <template> element") := by
    cases hfc : cfg.firstElementChild with
    | none =>
      simp [StreamElement.templateContent, StreamElement.templateElement,
        StreamElement.raise, hfc, Except.map]
    | some child =>
      cases child with
      | template c => exact absurd hfc (h c)
      | other =>
        simp [StreamElement.templateContent, StreamElement.templateElement,
          StreamElement.raise, hfc, Except.map]
  refine ⟨(StreamElement.renderBody_dispatches cfg S canceled).1,
    by simp [htmpl, StreamElement.errMsg],
    fun s hs hne hhit => ?_, fun hc => ?_, fun h0 => ?_⟩
  · have ht : truthyStr (some s) = true := by
      simp [truthyStr, hne]
    have hpa : StreamElement.performAction cfg S =
        Except.ok StreamElement.readsTemplate := by
      simp [StreamElement.performAction, ht, hs, hhit]
    constructor
    · simp [StreamElement.renderBody, hpa, StreamElement.readsTemplate, htmpl,
        StreamElement.errMsg, Except.map]
    · simp [StreamElement.renderBody, hpa]
  · subst hc
    simp [StreamElement.renderBody]
  · cases canceled with
    | true => exact Or.inl (by simp [StreamElement.renderBody])
    | false =>
      by_cases ht : truthyStr (StreamElement.action cfg) = true
      · cases hlook : S ((StreamElement.action cfg).getD "") with
        | none =>
          refine Or.inr (Or.inr ?_)
          simp [StreamElement.renderBody, StreamElement.performAction, ht, hlook,
            StreamElement.raise, StreamElement.errMsg]
        | some f =>
          exfalso
          have h1 : (StreamElement.renderBody cfg S false).2.handlerInvocations = 1 := by
            simp [StreamElement.renderBody, StreamElement.performAction, ht, hlook]
          exact Nat.one_ne_zero (h1.symm.trans h0)
      · refine Or.inr (Or.inl ?_)
        have ht' : truthyStr (StreamElement.action cfg) = false := by
          simpa using ht
        simp [StreamElement.renderBody, StreamElement.performAction, ht',
          StreamElement.raise, StreamElement.errMsg]

/-- C8 witness: a concrete element with `action="append"`, a non-template
first child, and a registry whose `append` handler reads the template. -/
theorem stream_template_error_deferred_witness :
    (StreamElement.renderBody StreamElement.cfgNoTemplate StreamElement.regReads
      false).2.signalDispatches = 1 ∧
    StreamElement.errMsg (StreamElement.renderBody StreamElement.cfgNoTemplate
      StreamElement.regReads false).1 =
      some (StreamElement.descr StreamElement.cfgNoTemplate ++ ": " ++
        "first child element must be a <template> element") ∧
    (StreamElement.renderBody StreamElement.cfgNoTemplate StreamElement.regReads
      false).2.handlerInvocations = 1 := by
  have hth := stream_template_error_deferred StreamElement.cfgNoTemplate
    StreamElement.regReads false
    (fun c hc => StreamElement.ChildElem.noConfusion (Option.some.inj hc))
  have hh := hth.2.2.1 "append" rfl (by decide) rfl
  exact ⟨hth.1, hh.1, hh.2⟩

/-- C9: when the before-render signal of a fresh stream element is
canceled, `render` still settles successfully with the same outcome a
successful render produces; subsequent `render` calls (any registry, any
cancellation oracle) return that same settled success without dispatching
the signal or invoking any handler again. -/
theorem stream_cancel_success_indistinguishable (S : StreamElement.Registry)
    (st : StreamElement.Inst) (h : st.renderPromise = none) :
    (StreamElement.render S true st).1 = Except.ok () ∧
    (∀ (S2 : StreamElement.Registry) (c2 : Bool),
      StreamElement.render S2 c2 (StreamElement.render S true st).2.1 =
        (Except.ok (), (StreamElement.render S true st).2.1, ⟨0, 0⟩)) ∧
    (∀ (cfg2 : StreamElement.Config) (S2 : StreamElement.Registry)
      (s : String) (f : StreamElement.Handler),
      StreamElement.action cfg2 = some s → s ≠ "" → S2 s = some f →
      f cfg2 = Except.ok () →
      (StreamElement.renderBody cfg2 S2 false).1 =
        (StreamElement.render S true st).1) := by
  have h1 : StreamElement.render S true st =
      (Except.ok (), { st with renderPromise := some (Except.ok ()) }, ⟨1, 0⟩) := by
    simp [StreamElement.render, h, StreamElement.renderBody]
  refine ⟨by rw [h1], fun S2 c2 => ?_, fun cfg2 S2 s f hs hne hhit hok => ?_⟩
  · rw [h1]
    simp [StreamElement.render]
  · have ht : truthyStr (some s) = true := by
      simp [truthyStr, hne]
    rw [h1]
    simp [StreamElement.renderBody, StreamElement.performAction, ht, hs, hhit, hok]

/-- C9 witness: a concrete canceled render on a bare fresh element, checked
against a concrete successful render. -/
theorem stream_cancel_success_indistinguishable_witness :
    (StreamElement.render StreamElement.regNone true
      ⟨StreamElement.cfgBare, none, true⟩).1 = Except.ok () ∧
    StreamElement.render StreamElement.regNone false
      (StreamElement.render StreamElement.regNone true
        ⟨StreamElement.cfgBare, none, true⟩).2.1 =
      (Except.ok (),
       (StreamElement.render StreamElement.regNone true
         ⟨StreamElement.cfgBare, none, true⟩).2.1, ⟨0, 0⟩) :=
  ⟨(stream_cancel_success_indistinguishable StreamElement.regNone
      ⟨StreamElement.cfgBare, none, true⟩ rfl).1,
   (stream_cancel_success_indistinguishable StreamElement.regNone
      ⟨StreamElement.cfgBare, none, true⟩ rfl).2.1 StreamElement.regNone false⟩

end Turbo
